import Mathlib

/-
Verification development for the nano-backend generation-job orchestrator.

The definitions below are a shallow embedding of the Go sources:
  internal/jobs (the job runner: tick, runGeneration, runGRSAIGeneration,
    runGeminiGeneration, identifyErrorCode, resolveJobTimeoutSeconds,
    resolveElapsedSeconds, updateFailed, updateFailedWithCode,
    handleGRSAISucceeded),
  internal/grsai (ExtractFirstResultURL, parseSSEResponse),
  internal/models (the Generation row and Settings).
External collaborators (database reads, HTTP calls, the file store, the
credential decryptor, encoding/json) are passed in as explicit environment
values, mirroring the interfaces the Go code consumes.  Machine integers are
modelled as Int with Go division semantics (Int.tdiv / Int.tmod truncate
toward zero exactly as Go int division does); float64 progress values are
modelled as Rat, which is faithful for every comparison the code performs.
-/

namespace NanoBackend

/-- Character-list test: the list starts with the pattern. -/
def listStartsWith : List Char → List Char → Bool
  | _, [] => true
  | [], _ :: _ => false
  | d :: ds, c :: cs => d == c && listStartsWith ds cs

/-- Character-list test: the pattern occurs somewhere in the list. -/
def listContainsSub (sub : List Char) : List Char → Bool
  | [] => sub.isEmpty
  | d :: ds => listStartsWith (d :: ds) sub || listContainsSub sub ds

/-- Go strings.Contains: sub occurs somewhere inside s. -/
def strContains (s sub : String) : Bool :=
  listContainsSub sub.toList s.toList

/-- Go strings.ToLower as identifyErrorCode consumes it: characters are
lower-cased (Char.toLower maps the Latin capitals; every substring the
classifier tests is ASCII or caseless Chinese text, for which this agrees
with the Go function). -/
def latinLower (s : String) : String :=
  String.mk (s.toList.map Char.toLower)

/-- Modelled from the spec: the closed eight-value error-code taxonomy
(quota-exhausted, invalid-credentials, timeout, network-error,
invalid-request, upstream-api-error, unsupported-feature, unknown).  The Go
constants models.ErrorCode... are referenced by internal/jobs but their
declaring file is not among the provided sources; the constructors below
stand for those eight distinct constants, named after them. -/
inductive GenerationErrorCode where
  | insufficientQuota
  | invalidAPIKey
  | timeout
  | networkError
  | invalidRequest
  | apiError
  | unsupportedFeature
  | unknown
deriving DecidableEq, Repr

/-- The quota test of identifyErrorCode (its first if). -/
def quotaMatch (lowerMsg : String) : Bool :=
  strContains lowerMsg "insufficient quota" ||
  strContains lowerMsg "quota failed" ||
  strContains lowerMsg "余额不足" ||
  strContains lowerMsg "配额"

/-- The invalid-key test of identifyErrorCode (its second if). -/
def invalidKeyMatch (lowerMsg : String) : Bool :=
  strContains lowerMsg "invalid api key" ||
  strContains lowerMsg "unauthorized" ||
  strContains lowerMsg "401" ||
  strContains lowerMsg "authentication failed"

/-- The timeout test of identifyErrorCode (its third if). -/
def timeoutMatch (lowerMsg : String) : Bool :=
  strContains lowerMsg "timeout" ||
  strContains lowerMsg "超时" ||
  strContains lowerMsg "timed out"

/-- The network test of identifyErrorCode (its fourth if). -/
def networkMatch (lowerMsg : String) : Bool :=
  strContains lowerMsg "network" ||
  strContains lowerMsg "connection" ||
  strContains lowerMsg "dns" ||
  strContains lowerMsg "dial"

/-- The invalid-request test of identifyErrorCode (its fifth if). -/
def invalidRequestMatch (lowerMsg : String) : Bool :=
  strContains lowerMsg "invalid request" ||
  strContains lowerMsg "invalid url" ||
  strContains lowerMsg "bad request" ||
  strContains lowerMsg "400"

/-- The generic API-error test of identifyErrorCode (its sixth if). -/
def apiErrorMatch (lowerMsg : String) : Bool :=
  strContains lowerMsg "api调用失败" ||
  strContains lowerMsg "api error" ||
  strContains lowerMsg "internal error" ||
  strContains lowerMsg "500" ||
  strContains lowerMsg "502" ||
  strContains lowerMsg "503"

/-- The unsupported-feature test of identifyErrorCode (its seventh if). -/
def unsupportedMatch (lowerMsg : String) : Bool :=
  strContains lowerMsg "不支持" ||
  strContains lowerMsg "not supported" ||
  strContains lowerMsg "unsupported"

/-- internal/jobs identifyErrorCode: lower-case the message and test the
seven category predicates in source order, first match winning, with
unknown as the fallthrough. -/
def identifyErrorCode (errMsg : String) : GenerationErrorCode :=
  let lowerMsg := latinLower errMsg
  if quotaMatch lowerMsg then GenerationErrorCode.insufficientQuota
  else if invalidKeyMatch lowerMsg then GenerationErrorCode.invalidAPIKey
  else if timeoutMatch lowerMsg then GenerationErrorCode.timeout
  else if networkMatch lowerMsg then GenerationErrorCode.networkError
  else if invalidRequestMatch lowerMsg then GenerationErrorCode.invalidRequest
  else if apiErrorMatch lowerMsg then GenerationErrorCode.apiError
  else if unsupportedMatch lowerMsg then GenerationErrorCode.unsupportedFeature
  else GenerationErrorCode.unknown

/-- The spec-side priority table of the classifier: the categories in the
priority order the spec states (quota, invalid key, timeout, network,
invalid request, API error, unsupported feature). -/
def classifyOrder : List ((String → Bool) × GenerationErrorCode) :=
  [(quotaMatch, GenerationErrorCode.insufficientQuota),
   (invalidKeyMatch, GenerationErrorCode.invalidAPIKey),
   (timeoutMatch, GenerationErrorCode.timeout),
   (networkMatch, GenerationErrorCode.networkError),
   (invalidRequestMatch, GenerationErrorCode.invalidRequest),
   (apiErrorMatch, GenerationErrorCode.apiError),
   (unsupportedMatch, GenerationErrorCode.unsupportedFeature)]

/-- The spec-side first-match semantics: the first category of the priority
table whose predicate accepts the lower-cased message, unknown when none
does. -/
def firstMatchClassify (errMsg : String) : GenerationErrorCode :=
  match classifyOrder.find? (fun p => p.1 (latinLower errMsg)) with
  | some p => p.2
  | none => GenerationErrorCode.unknown

/-- internal/models Settings (the four system-configuration values). -/
structure Settings where
  fileRetentionHours : Int
  referenceHistoryLimit : Int
  imageTimeoutSeconds : Int
  videoTimeoutSeconds : Int
deriving Repr, DecidableEq

/-- internal/jobs resolveJobTimeoutSeconds.  The settingsResult parameter
models the database.GetSettings call: some s when it returned without error
and with a non-nil settings value, none otherwise. -/
def resolveJobTimeoutSeconds (settingsResult : Option Settings)
    (genType : String) : Int :=
  let timeoutSeconds : Int := 600
  let timeoutSeconds :=
    match settingsResult with
    | some settings =>
        if genType = "video" then settings.videoTimeoutSeconds
        else settings.imageTimeoutSeconds
    | none => timeoutSeconds
  if timeoutSeconds < 30 then 600 else timeoutSeconds

/-- The maxAttempts computation of the poll loop in runGRSAIGeneration:
timeoutSeconds / pollSeconds with Go truncated division, one more when the
division leaves a remainder, and at least 1. -/
def computeMaxAttempts (timeoutSeconds : Int) : Int :=
  let pollSeconds : Int := 2
  let maxAttempts := timeoutSeconds.tdiv pollSeconds
  let maxAttempts :=
    if timeoutSeconds.tmod pollSeconds != 0 then maxAttempts + 1 else maxAttempts
  if maxAttempts < 1 then 1 else maxAttempts

/-- internal/models Generation: the persisted job row, restricted to the
fields the orchestrator reads or writes (favorite, runId, nodePosition,
createdAt and updatedAt are never consulted by the job runner and are
omitted).  Pointer-typed Go fields become Option; ReferenceFileIDs becomes
a list.  The errorCode key written by updateFailedWithCode is modelled as a
row field per the persistence contract updateGeneration(id, partialFieldMap). -/
structure Generation where
  id : String
  userID : String
  type : String
  prompt : String
  model : String
  status : String
  progress : Option Rat
  startedAt : Option Int
  elapsedSeconds : Option Int
  error : Option String
  errorCode : Option GenerationErrorCode
  providerTaskID : Option String
  providerResultURL : Option String
  referenceFileIDs : List String
  imageSize : Option String
  aspectRatio : Option String
  outputFileID : Option String
  duration : Option Int
  videoSize : Option String
deriving Repr, DecidableEq

/-- One key-value pair of a Go map[string]interface sent to
database.UpdateGeneration, restricted to the keys the job runner writes. -/
inductive GenField where
  | status (v : String)
  | startedAt (v : Int)
  | elapsedSeconds (v : Int)
  | progress (v : Rat)
  | error (v : String)
  | errorCode (v : GenerationErrorCode)
  | providerTaskId (v : String)
  | providerResultUrl (v : String)
  | outputFileId (v : String)
deriving Repr, DecidableEq

/-- Applying one update-map entry to the persisted row. -/
def applyField (g : Generation) : GenField → Generation
  | GenField.status v => { g with status := v }
  | GenField.startedAt v => { g with startedAt := some v }
  | GenField.elapsedSeconds v => { g with elapsedSeconds := some v }
  | GenField.progress v => { g with progress := some v }
  | GenField.error v => { g with error := some v }
  | GenField.errorCode v => { g with errorCode := some v }
  | GenField.providerTaskId v => { g with providerTaskID := some v }
  | GenField.providerResultUrl v => { g with providerResultURL := some v }
  | GenField.outputFileId v => { g with outputFileID := some v }

/-- database.UpdateGeneration applied to the one row the run touches: each
entry of the partial field map overwrites its column. -/
def applyUpdates (g : Generation) (updates : List GenField) : Generation :=
  updates.foldl applyField g

/-- internal/jobs resolveElapsedSeconds.  The fetched parameter models the
database.GetGenerationByID re-read: some gen when the read succeeded with a
non-nil row, none otherwise.  Division is Go truncated division and a
negative difference is clamped to zero. -/
def resolveElapsedSeconds (now : Int) (fetched : Option Generation) :
    Option Int :=
  match fetched with
  | none => none
  | some gen =>
    match gen.startedAt with
    | none => none
    | some s =>
      if s = 0 then none
      else
        let elapsed := (now - s).tdiv 1000
        some (if elapsed < 0 then 0 else elapsed)

/-- internal/jobs updateFailedWithCode: the update map it sends to
database.UpdateGeneration.  A none errorCode models the empty Go string
code, which is replaced by classifying the message text. -/
def updateFailedWithCode (now : Int) (fetched : Option Generation)
    (errMsg : String) (errorCode : Option GenerationErrorCode) :
    List GenField :=
  let errorCode :=
    match errorCode with
    | none => identifyErrorCode errMsg
    | some c => c
  let updates := [GenField.status "failed", GenField.error errMsg,
                  GenField.errorCode errorCode]
  match resolveElapsedSeconds now fetched with
  | some elapsed => updates ++ [GenField.elapsedSeconds elapsed]
  | none => updates

/-- internal/jobs updateFailed: updateFailedWithCode with the empty code. -/
def updateFailed (now : Int) (fetched : Option Generation)
    (errMsg : String) : List GenField :=
  updateFailedWithCode now fetched errMsg none

/-- The update map of the succeeded transition (handleGRSAISucceeded and the
success tail of runGeminiGeneration build this same map): status succeeded,
progress 100, the stored output file, the diagnostic result URL, and
elapsedSeconds when resolvable. -/
def succeededUpdates (now : Int) (fetched : Option Generation)
    (fileID url : String) : List GenField :=
  let updates := [GenField.status "succeeded", GenField.progress 100,
                  GenField.outputFileId fileID,
                  GenField.providerResultUrl url]
  match resolveElapsedSeconds now fetched with
  | some elapsed => updates ++ [GenField.elapsedSeconds elapsed]
  | none => updates

/-- internal/grsai TaskResult.Results entries (url and pid). -/
structure TaskResultItem where
  url : String
  pid : String
deriving Repr, DecidableEq

/-- internal/grsai TaskResult: the structured status of a provider task. -/
structure TaskResult where
  id : String
  status : String
  progress : Rat
  results : List TaskResultItem
  error : String
  message : String
deriving Repr, DecidableEq

/-- internal/grsai CreateTaskResponse: the outcome of a submission call. -/
structure CreateTaskResponse where
  id : String
  finished : Bool
  result : Option TaskResult
deriving Repr, DecidableEq

/-- internal/grsai ExtractFirstResultURL on a non-nil task result: the URL of
the first results entry when that entry has a non-empty URL, else empty. -/
def ExtractFirstResultURL (result : TaskResult) : String :=
  match result.results with
  | [] => ""
  | item :: _ => if item.url != "" then item.url else ""

/-- The reference-URL list runGRSAIGeneration builds before submission:
each reference-file identifier is converted by fileToBase64Data (modelled by
the fileData parameter: some dataURL on success, none when the file is
missing or unreadable); failed conversions are skipped, empty conversions
are skipped, and nothing caps the length. -/
def buildRefURLs (fileData : String → Option String) :
    List String → List String
  | [] => []
  | fid :: rest =>
      match fileData fid with
      | none => buildRefURLs fileData rest
      | some base64Data =>
          if base64Data != "" then base64Data :: buildRefURLs fileData rest
          else buildRefURLs fileData rest

/-- The reference list runGRSAIGeneration hands to the async provider
adapter: the whole built list for an image job (CreateNanoBananaTask takes
the slice as is), and for a video job the single first entry when one
exists (CreateSoraVideoTask takes one URL and only sets it when
non-empty). -/
def grsaiSubmittedRefs (fileData : String → Option String)
    (g : Generation) : List String :=
  let refURLs := buildRefURLs fileData g.referenceFileIDs
  if g.type = "image" then refURLs
  else if g.type = "video" then
    let refURL := match refURLs with | [] => "" | u :: _ => u
    if refURL != "" then [refURL] else []
  else []

/-- The external world of one runGRSAIGeneration run: the clock, the
submission outcome, the per-attempt GetTaskResult outcome, the per-attempt
failure of the GetGenerationByID re-read, and the outcome of
fetchAndStoreRemoteFile (url to stored file ID). -/
structure GrsaiEnv where
  now : Int
  submit : Except String CreateTaskResponse
  poll : Nat → Except String TaskResult
  readFail : Nat → Bool
  download : String → Except String String

/-- The Go condition latest.Status is succeeded or failed. -/
def terminalStatus (s : String) : Bool :=
  s == "succeeded" || s == "failed"

/-- The Go condition g.ProviderTaskID is nil or the empty string. -/
def taskIDMissing (g : Generation) : Bool :=
  match g.providerTaskID with
  | none => true
  | some tid => tid == ""

/-- internal/jobs handleGRSAISucceeded acting on the persisted row: fail
with an API-error code when no result URL is present, fail with a
network-error code when the download fails, otherwise apply the succeeded
update map. -/
def handleGRSAISucceeded (env : GrsaiEnv) (st : Generation)
    (result : TaskResult) : Generation :=
  let url := ExtractFirstResultURL result
  if url = "" then
    applyUpdates st (updateFailedWithCode env.now (some st) "未返回结果地址"
      (some GenerationErrorCode.apiError))
  else
    match env.download url with
    | Except.error e =>
        applyUpdates st (updateFailedWithCode env.now (some st)
          ("下载失败：" ++ e) (some GenerationErrorCode.networkError))
    | Except.ok fileID =>
        applyUpdates st (succeededUpdates env.now (some st) fileID url)

/-- The poll loop of runGRSAIGeneration, one constructor case per loop exit.
fuel is the remaining attempt budget (the loop starts at fuel = maxAttempts)
and attempts the Go loop counter (used for the every-tenth logging of
transient fetch errors, which also persists the error text into the row).
A failing re-read, a nil row, or an already-terminal status exits silently;
a missing task ID fails with invalid-request; a transient fetch error
persists the message on every tenth attempt and retries; a positive
progress is persisted; succeeded and failed statuses finish the job; fuel
running out fails with a timeout code. -/
def runGRSAIPollLoop (env : GrsaiEnv) : Nat → Nat → Generation → Generation
  | 0, _, st =>
      applyUpdates st (updateFailedWithCode env.now (some st) "等待结果超时"
        (some GenerationErrorCode.timeout))
  | fuel + 1, attempts, st =>
      if env.readFail attempts then st
      else if terminalStatus st.status then st
      else if taskIDMissing st then
        applyUpdates st (updateFailedWithCode env.now (some st) "缺少任务 ID"
          (some GenerationErrorCode.invalidRequest))
      else
        match env.poll attempts with
        | Except.error e =>
            let st :=
              if attempts % 10 = 0 then applyUpdates st [GenField.error e]
              else st
            runGRSAIPollLoop env fuel (attempts + 1) st
        | Except.ok result =>
            let st :=
              if 0 < result.progress then
                applyUpdates st [GenField.progress result.progress]
              else st
            if result.status = "succeeded" then
              handleGRSAISucceeded env st result
            else if result.status = "failed" then
              let errMsg :=
                if result.error != "" then result.error
                else if result.message != "" then result.message
                else "任务执行失败"
              applyUpdates st (updateFailed env.now (some st) errMsg)
            else
              runGRSAIPollLoop env fuel (attempts + 1) st

/-- internal/jobs runGRSAIGeneration: submit when the row has no provider
task ID yet (a submission error fails the job; an immediately finished
response with a result goes straight to the success handler; otherwise the
task ID and progress 0 are persisted), then run the poll loop with
maxAttempts fuel. -/
def runGRSAIGeneration (env : GrsaiEnv) (st : Generation)
    (timeoutSeconds : Int) : Generation :=
  let fuel := (computeMaxAttempts timeoutSeconds).toNat
  if taskIDMissing st then
    match env.submit with
    | Except.error e => applyUpdates st (updateFailed env.now (some st) e)
    | Except.ok taskResp =>
        match taskResp.result with
        | some r =>
            if taskResp.finished then handleGRSAISucceeded env st r
            else
              let st := applyUpdates st
                [GenField.providerTaskId taskResp.id, GenField.progress 0]
              runGRSAIPollLoop env fuel 0 st
        | none =>
            let st := applyUpdates st
              [GenField.providerTaskId taskResp.id, GenField.progress 0]
            runGRSAIPollLoop env fuel 0 st
  else
    runGRSAIPollLoop env fuel 0 st

/-- Go strings.TrimPrefix. -/
def trimPrefixStr (s p : String) : String :=
  if s.startsWith p then s.drop p.length else s

/-- Go strings.TrimSuffix. -/
def trimSuffixStr (s p : String) : String :=
  if s.endsWith p then s.dropRight p.length else s

/-- Go strings.SplitN with n = 2: the text before the first separator and
the remainder, or the whole string when the separator does not occur. -/
def splitN2 (s sep : String) : List String :=
  match s.splitOn sep with
  | [] => []
  | [a] => [a]
  | a :: rest => [a, String.intercalate sep rest]

/-- The external world of one runGeminiGeneration run: the clock, the
outcome of the one network call (client.CreateImageTask followed by the
pure gemini.ExtractImageURLs, giving an error or the extracted URL list),
the base64 decoder, and handlers.SaveBufferToFile (mime type and decoded
data to stored file ID). -/
structure GeminiEnv where
  now : Int
  callResult : Except String (List String)
  base64Decode : String → Except String String
  saveBuffer : String → String → Except String String

/-- internal/jobs runGeminiGeneration acting on the persisted row, paired
with the number of network calls to the provider the run makes.  A job
whose type is not image fails immediately with an unsupported-feature code
and zero network calls; otherwise the single CreateImageTask call is made
and the first extracted data URL is split, decoded and stored. -/
def runGeminiGeneration (env : GeminiEnv) (st : Generation) :
    Generation × Nat :=
  if st.type != "image" then
    (applyUpdates st (updateFailedWithCode env.now (some st)
      "Gemini API 暂不支持视频生成" (some GenerationErrorCode.unsupportedFeature)), 0)
  else
    match env.callResult with
    | Except.error e =>
        (applyUpdates st (updateFailed env.now (some st) e), 1)
    | Except.ok imageURLs =>
        match imageURLs with
        | [] =>
            (applyUpdates st (updateFailedWithCode env.now (some st)
              "未返回生成结果" (some GenerationErrorCode.apiError)), 1)
        | firstImageURL :: _ =>
            match splitN2 firstImageURL "," with
            | [p0, p1] =>
                let mimeType := trimSuffixStr (trimPrefixStr p0 "data:") ";base64"
                (match env.base64Decode p1 with
                 | Except.error e =>
                     applyUpdates st (updateFailedWithCode env.now (some st)
                       ("解码图片数据失败：" ++ e)
                       (some GenerationErrorCode.apiError))
                 | Except.ok imageData =>
                     match env.saveBuffer mimeType imageData with
                     | Except.error e =>
                         applyUpdates st (updateFailedWithCode env.now (some st)
                           ("保存图片失败：" ++ e)
                           (some GenerationErrorCode.apiError))
                     | Except.ok fileID =>
                         applyUpdates st
                           (succeededUpdates env.now (some st) fileID
                             firstImageURL), 1)
            | _ =>
                (applyUpdates st (updateFailedWithCode env.now (some st)
                  "无效的图片数据格式"
                  (some GenerationErrorCode.invalidRequest)), 1)

/-- A JSON value as encoding/json decodes one into map[string]interface:
objects keep their fields as key-value pairs, numbers are rationals. -/
inductive JVal where
  | str (s : String)
  | num (q : Rat)
  | boolean (b : Bool)
  | null
  | arr (xs : List JVal)
  | obj (fields : List (String × JVal))

/-- Go strings.HasPrefix. -/
def goHasPrefix (s p : String) : Bool :=
  listStartsWith s.toList p.toList

/-- Go strings.TrimPrefix: remove the prefix when present. -/
def goTrimPrefix (s p : String) : String :=
  if goHasPrefix s p then String.mk (s.toList.drop p.toList.length) else s

/-- Go strings.TrimSpace: drop leading and trailing whitespace. -/
def goTrimSpace (s : String) : String :=
  String.mk
    (((s.toList.dropWhile Char.isWhitespace).reverse.dropWhile
        Char.isWhitespace).reverse)

/-- Splitting a character list at every occurrence of the separator. -/
def splitOnChar (sep : Char) : List Char → List (List Char)
  | [] => [[]]
  | c :: cs =>
      if c = sep then [] :: splitOnChar sep cs
      else
        match splitOnChar sep cs with
        | [] => [[c]]
        | h :: t => (c :: h) :: t

/-- Go strings.Split on a one-character separator. -/
def goSplit (s : String) (sep : Char) : List String :=
  (splitOnChar sep s.toList).map String.mk

/-- The Go type assertion data with a string key: the field's value when
the record is an object and that field holds a string. -/
def getStringField (j : JVal) (key : String) : Option String :=
  match j with
  | JVal.obj fields =>
      match fields.lookup key with
      | some (JVal.str s) => some s
      | _ => none
  | _ => none

/-- The per-line extraction of parseSSEResponse: trim the line, require the
data: prefix, trim the payload, skip an empty payload, and decode it.  The
decode parameter models json.Unmarshal into a map (none on malformed
JSON). -/
def sseRecordOfLine (decode : String → Option JVal) (line : String) :
    Option JVal :=
  let line := goTrimSpace line
  if goHasPrefix line "data:" then
    let jsonStr := goTrimSpace (goTrimPrefix line "data:")
    if jsonStr = "" then none else decode jsonStr
  else none

/-- The loop of internal/grsai parseSSEResponse, carrying lastResult and
completedResult exactly as the Go loop does: every decoded record replaces
lastResult, and a record whose status field is the string succeeded or
failed replaces completedResult. -/
def parseSSELoop (decode : String → Option JVal) :
    List String → Option JVal → Option JVal → Option JVal × Option JVal
  | [], lastResult, completedResult => (lastResult, completedResult)
  | line :: rest, lastResult, completedResult =>
      match sseRecordOfLine decode line with
      | none => parseSSELoop decode rest lastResult completedResult
      | some data =>
          let lastResult := some data
          let completedResult :=
            match getStringField data "status" with
            | some status =>
                if status = "succeeded" || status = "failed" then some data
                else completedResult
            | none => completedResult
          parseSSELoop decode rest lastResult completedResult

/-- internal/grsai parseSSEResponse: split the body into lines, run the
loop, and prefer the completed result over the last valid one. -/
def parseSSEResponse (decode : String → Option JVal) (respStr : String) :
    Option JVal :=
  let lines := goSplit respStr '\n'
  let (lastResult, completedResult) := parseSSELoop decode lines none none
  match completedResult with
  | some r => some r
  | none => lastResult

/-- The spec-side record stream: the syntactically valid records of the
body, in order (lines without the data: prefix, empty payloads and
undecodable payloads dropped). -/
def sseDataRecords (decode : String → Option JVal) (respStr : String) :
    List JVal :=
  (goSplit respStr '\n').filterMap (sseRecordOfLine decode)

/-- The spec-side terminal test: the record reports status succeeded or
failed. -/
def isTerminalRecord (j : JVal) : Bool :=
  match getStringField j "status" with
  | some status => status = "succeeded" || status = "failed"
  | none => false

/-- internal/models UserProvider (the per-user provider row). -/
structure UserProvider where
  userID : String
  providerHost : String
  apiKeyEnc : String
deriving Repr, DecidableEq

/-- internal/config Config, restricted to the fields getEffectiveProvider
reads. -/
structure GConfig where
  defaultProviderHost : String
  defaultProviderAPIKey : String
  apiKeyEncryptionSecret : String
deriving Repr, DecidableEq

/-- internal/jobs getEffectiveProvider.  providerResult models
database.GetUserProvider (error, absent row, or the row); decrypt models
crypto.DecryptText on ciphertext and secret.  The defaults are replaced by
the user row when present, the decrypted key only when decryption succeeds
with a non-empty plaintext, and an empty final key is an error. -/
def getEffectiveProvider (cfg : GConfig)
    (providerResult : Except String (Option UserProvider))
    (decrypt : String → String → Except String String) :
    Except String (String × String) :=
  match providerResult with
  | Except.error e => Except.error e
  | Except.ok provider =>
      let host := cfg.defaultProviderHost
      let apiKey := cfg.defaultProviderAPIKey
      let hostKey :=
        match provider with
        | none => (host, apiKey)
        | some p =>
            let host := p.providerHost
            let apiKey :=
              if p.apiKeyEnc != "" then
                match decrypt p.apiKeyEnc cfg.apiKeyEncryptionSecret with
                | Except.ok decrypted =>
                    if decrypted != "" then decrypted else apiKey
                | Except.error _ => apiKey
              else apiKey
            (host, apiKey)
      if hostKey.2 = "" then Except.error "未配置接口密钥，请在接口设置中填写。"
      else Except.ok hostKey

/-- The per-job body of the tick loop in internal/jobs: walk the pending
jobs, skip one whose ID is already in the in-flight guard set, otherwise
insert the ID and launch the run.  Returns the guard set after the tick and
the IDs launched by this tick, in order. -/
def tickGo : List String → List String → List String →
    List String × List String
  | [], guard, launched => (guard, launched)
  | gid :: rest, guard, launched =>
      if gid ∈ guard then tickGo rest guard launched
      else tickGo rest (gid :: guard) (launched ++ [gid])

/-- internal/jobs tick over the listed pending-job IDs: the guard set after
the tick and the IDs this tick launched a protocol-engine run for. -/
def tick (guard : List String) (pending : List String) :
    List String × List String :=
  tickGo pending guard []

/-- The deferred activeJobs.Delete when a launched run returns: the guard
entry is removed unconditionally. -/
def finishJob (guard : List String) (gid : String) : List String :=
  guard.erase gid

/-- A video-kind job as the dispatcher hands one to the engine. -/
def videoJobEx : Generation :=
  Generation.mk "g1" "u1" "video" "a prompt" "sora-2" "running" (some 0)
    (some 1000) none none none (some "task-1") none [] none (some "9:16")
    none (some 10) (some "small")

/-- A Gemini environment whose call, decoder and store are never consulted
by a video job. -/
def geminiEnvEx : GeminiEnv :=
  GeminiEnv.mk 61500 (Except.error "unused")
    (fun _ => Except.error "unused") (fun _ _ => Except.error "unused")

/-- A conversion oracle under which every reference file resolves to a
non-empty data URL. -/
def allRefsResolve : String → Option String :=
  fun _ => some "data:image/png;base64,QUJD"

/-- An image job whose row carries fifteen reference-file identifiers. -/
def imageJob15 : Generation :=
  Generation.mk "g2" "u1" "image" "p" "nano-banana-pro" "queued" none none
    none none none none none
    ["f1", "f2", "f3", "f4", "f5", "f6", "f7", "f8", "f9", "f10", "f11",
     "f12", "f13", "f14", "f15"]
    none none none none none

/-- A video job carrying two reference-file identifiers. -/
def videoJob2 : Generation :=
  Generation.mk "g3" "u1" "video" "p" "sora-2" "queued" none none none
    none none none none ["f1", "f2"] none none none none none

/-- The running record of the worked example. -/
def exRunningRec : JVal := JVal.obj [("status", JVal.str "running")]

/-- The succeeded record of the worked example. -/
def exSucceededRec : JVal :=
  JVal.obj [("status", JVal.str "succeeded"),
    ("results", JVal.arr [JVal.obj [("url",
      JVal.str "https://cdn.example/out.png")]])]

/-- A concrete stand-in for json.Unmarshal covering the two payloads of the
worked example; every other payload is malformed. -/
def exDecode : String → Option JVal := fun s =>
  if s = "\x7b\"status\":\"running\"\x7d" then some exRunningRec
  else if s = "\x7b\"status\":\"succeeded\",\"results\":[\x7b\"url\":\"https://cdn.example/out.png\"\x7d]\x7d" then
    some exSucceededRec
  else none

/-- The worked SSE body: a running record, the succeeded record, a
malformed data line and trailing whitespace. -/
def exStream : String :=
  "data: \x7b\"status\":\"running\"\x7d\ndata: \x7b\"status\":\"succeeded\",\"results\":[\x7b\"url\":\"https://cdn.example/out.png\"\x7d]\x7d\ndata: notjson\n \n"

/-- A provider result reporting terminal success with one result URL. -/
def exPollSucceeded : TaskResult :=
  TaskResult.mk "task-1" "succeeded" 100
    [TaskResultItem.mk "https://cdn.example/out.png" ""] "" ""

/-- The counterexample environment: the first result fetch fails
transiently (persisting the error text), the second reports success, and
the download stores file-7. -/
def c1Env : GrsaiEnv :=
  GrsaiEnv.mk 61000 (Except.error "unused")
    (fun k => if k = 0 then Except.error "connection refused"
              else Except.ok exPollSucceeded)
    (fun _ => false) (fun _ => Except.ok "file-7")

/-- A running job with a persisted provider task ID and no error. -/
def c1Job : Generation :=
  Generation.mk "g1" "u1" "image" "p" "nano-banana" "running" (some 0)
    (some 1000) none none none (some "task-1") none [] (some "1K")
    (some "auto") none none none

/-- The persisted row after the counterexample run (timeout 600 seconds). -/
def c1Final : Generation := runGRSAIGeneration c1Env c1Job 600

/-- The witness environment: every result fetch succeeds at once. -/
def c1WitEnv : GrsaiEnv :=
  GrsaiEnv.mk 5000 (Except.error "unused")
    (fun _ => Except.ok exPollSucceeded) (fun _ => false)
    (fun _ => Except.ok "file-9")

/-- A running job with no persisted error. -/
def c1WitJob : Generation :=
  Generation.mk "g4" "u1" "image" "p" "nano-banana" "running" (some 0)
    (some 1000) none none none (some "task-2") none [] none none none
    none none

/-! Theorems settling the claims, with their helper lemmas. -/

/-- Clamping a negative value to zero is the max with zero. -/
lemma clamp_eq_max (x : Int) : (if x < 0 then 0 else x) = max 0 x := by
  rcases lt_or_le x 0 with h | h
  · simp [h, max_eq_left h.le]
  · simp [not_lt.mpr h, max_eq_right h]

/-- C3: the error classifier is a pure total function from the message to one
of the eight taxonomy codes; it realizes first-match semantics over the fixed
priority order quota, invalid key, timeout, network error, invalid request,
API error, unsupported feature, with unknown as the fallthrough; in
particular Invalid API Key classifies as invalid credentials, connection
refused as network error, HTTP 503 as upstream API error, and a string
matching no category as unknown. -/
theorem c3_identifyErrorCode_spec (s : String) :
    identifyErrorCode s = firstMatchClassify s ∧
    (quotaMatch (latinLower s) = false → invalidKeyMatch (latinLower s) = false →
     timeoutMatch (latinLower s) = false → networkMatch (latinLower s) = false →
     invalidRequestMatch (latinLower s) = false → apiErrorMatch (latinLower s) = false →
     unsupportedMatch (latinLower s) = false →
     identifyErrorCode s = GenerationErrorCode.unknown) ∧
    identifyErrorCode "Invalid API Key" = GenerationErrorCode.invalidAPIKey ∧
    identifyErrorCode "connection refused" = GenerationErrorCode.networkError ∧
    identifyErrorCode "HTTP 503" = GenerationErrorCode.apiError ∧
    identifyErrorCode "hello world" = GenerationErrorCode.unknown := by
  refine ⟨?_, ?_, by decide, by decide, by decide, by decide⟩
  · unfold identifyErrorCode firstMatchClassify classifyOrder
    by_cases h1 : quotaMatch (latinLower s) <;>
      by_cases h2 : invalidKeyMatch (latinLower s) <;>
      by_cases h3 : timeoutMatch (latinLower s) <;>
      by_cases h4 : networkMatch (latinLower s) <;>
      by_cases h5 : invalidRequestMatch (latinLower s) <;>
      by_cases h6 : apiErrorMatch (latinLower s) <;>
      by_cases h7 : unsupportedMatch (latinLower s) <;>
      simp [h1, h2, h3, h4, h5, h6, h7, List.find?]
  · intro h1 h2 h3 h4 h5 h6 h7
    unfold identifyErrorCode
    simp [h1, h2, h3, h4, h5, h6, h7]

/-- C3 witness: the universally quantified part instantiated at a concrete
message that matches no category. -/
theorem c3_identifyErrorCode_witness :
    identifyErrorCode "hello world" = firstMatchClassify "hello world" ∧
    identifyErrorCode "hello world" = GenerationErrorCode.unknown := by
  have h := c3_identifyErrorCode_spec "hello world"
  exact ⟨h.1, h.2.1 (by decide) (by decide) (by decide) (by decide)
    (by decide) (by decide) (by decide)⟩

/-- C4: for every resolved timeout value (they are all at least the
30-second floor), the poll budget equals the ceiling of timeoutSeconds
divided by two and is at least one; in particular 601 gives 301 and 30
gives 15. -/
theorem c4_maxAttempts_ceil (ts : Int) (h : 30 ≤ ts) :
    computeMaxAttempts ts = ⌈(ts : ℚ) / 2⌉ ∧
    (1 : Int) ≤ computeMaxAttempts ts ∧
    computeMaxAttempts 601 = 301 ∧ computeMaxAttempts 30 = 15 := by
  have h0 : (0 : Int) ≤ ts := by omega
  have htd : ts.tdiv 2 = ts / 2 := Int.tdiv_eq_ediv h0 (by norm_num)
  have htm : ts.tmod 2 = ts % 2 := Int.tmod_eq_emod h0 (by norm_num)
  have hval : computeMaxAttempts ts =
      (if ts % 2 ≠ 0 then ts / 2 + 1 else ts / 2) := by
    unfold computeMaxAttempts
    simp only [htd, htm, bne_iff_ne, ne_eq, ite_not]
    split
    · next heq => simp [heq]; omega
    · next hne => simp [hne]; omega
  have hceil : ∀ m : Int, 2 * m - 2 < ts → ts ≤ 2 * m → ⌈(ts : ℚ) / 2⌉ = m := by
    intro m h1 h2
    rw [Int.ceil_eq_iff]
    constructor
    · rw [lt_div_iff₀ (by norm_num : (0 : ℚ) < 2)]
      have : ((2 * m - 2 : Int) : ℚ) < ((ts : Int) : ℚ) := by exact_mod_cast h1
      push_cast at this ⊢
      linarith
    · rw [div_le_iff₀ (by norm_num : (0 : ℚ) < 2)]
      have : ((ts : Int) : ℚ) ≤ ((2 * m : Int) : ℚ) := by exact_mod_cast h2
      push_cast at this ⊢
      linarith
  refine ⟨?_, by rw [hval]; split <;> omega, by decide, by decide⟩
  rw [hval]
  split
  · next hne => exact (hceil (ts / 2 + 1) (by omega) (by omega)).symm
  · next heq => exact (hceil (ts / 2) (by omega) (by omega)).symm

/-- C4 witness: the theorem applied at the concrete resolved timeout 601. -/
theorem c4_maxAttempts_witness :
    computeMaxAttempts 601 = ⌈((601 : Int) : ℚ) / 2⌉ ∧
    computeMaxAttempts 601 = 301 ∧ computeMaxAttempts 30 = 15 := by
  have h := c4_maxAttempts_ceil 601 (by norm_num)
  exact ⟨h.1, h.2.2.1, h.2.2.2⟩

/-- C7: the effective timeout is the kind-specific setting (video timeout
for video jobs, image timeout otherwise); a failed settings read or a value
below the 30-second floor resolves to the 600-second default; the resolved
timeout is always at least 30. -/
theorem c7_resolveTimeout_spec (s : Settings) (t : String) :
    resolveJobTimeoutSeconds none t = 600 ∧
    ((if t = "video" then s.videoTimeoutSeconds else s.imageTimeoutSeconds) < 30 →
      resolveJobTimeoutSeconds (some s) t = 600) ∧
    (30 ≤ (if t = "video" then s.videoTimeoutSeconds else s.imageTimeoutSeconds) →
      resolveJobTimeoutSeconds (some s) t =
        (if t = "video" then s.videoTimeoutSeconds else s.imageTimeoutSeconds)) ∧
    30 ≤ resolveJobTimeoutSeconds (some s) t ∧
    30 ≤ resolveJobTimeoutSeconds none t := by
  unfold resolveJobTimeoutSeconds
  by_cases hv : t = "video" <;> simp [hv] <;> split_ifs <;> omega

/-- C7 witness: the theorem applied with a settings row whose video timeout
is below the floor, for a video job. -/
theorem c7_resolveTimeout_witness :
    resolveJobTimeoutSeconds (some (Settings.mk 168 50 600 10)) "video" = 600 ∧
    30 ≤ resolveJobTimeoutSeconds (some (Settings.mk 168 50 600 10)) "video" := by
  have h := c7_resolveTimeout_spec (Settings.mk 168 50 600 10) "video"
  exact ⟨h.2.1 (by decide), h.2.2.2.1⟩

/-- C8: a terminal transition (the failed update map and the succeeded
update map) carries elapsedSeconds equal to the clamped elapsed time
max 0 ((now - startedAt) / 1000) exactly when the persisted startedAt is
set and non-zero, and omits it otherwise. -/
theorem c8_terminal_elapsed_spec (now : Int) (g : Generation) (msg : String)
    (c : Option GenerationErrorCode) (fid url : String) :
    (∀ s, g.startedAt = some s → s ≠ 0 →
      (GenField.elapsedSeconds (max 0 ((now - s).tdiv 1000)) ∈
        updateFailedWithCode now (some g) msg c ∧
       GenField.elapsedSeconds (max 0 ((now - s).tdiv 1000)) ∈
        succeededUpdates now (some g) fid url)) ∧
    ((g.startedAt = none ∨ g.startedAt = some 0) →
      ∀ e, GenField.elapsedSeconds e ∉ updateFailedWithCode now (some g) msg c ∧
           GenField.elapsedSeconds e ∉ succeededUpdates now (some g) fid url) := by
  constructor
  · intro s hs hs0
    have hre : resolveElapsedSeconds now (some g) =
        some (max 0 ((now - s).tdiv 1000)) := by
      unfold resolveElapsedSeconds
      simp [hs, hs0, clamp_eq_max]
    constructor
    · unfold updateFailedWithCode
      rw [hre]
      simp
    · unfold succeededUpdates
      rw [hre]
      simp
  · intro hz e
    have hre : resolveElapsedSeconds now (some g) = none := by
      unfold resolveElapsedSeconds
      rcases hz with h | h <;> simp [h]
    constructor
    · unfold updateFailedWithCode
      rw [hre]
      simp
    · unfold succeededUpdates
      rw [hre]
      simp

/-- C8 witness: both branches of the theorem at concrete rows, one with
startedAt 1000 at now 61500 (elapsed 60), one with no startedAt. -/
theorem c8_terminal_elapsed_witness :
    GenField.elapsedSeconds 60 ∈
      updateFailedWithCode 61500
        (some (Generation.mk "g1" "u1" "image" "p" "m" "running" none
          (some 1000) none none none none none [] none none none none none))
        "boom" none ∧
    (∀ e, GenField.elapsedSeconds e ∉
      succeededUpdates 61500
        (some (Generation.mk "g1" "u1" "image" "p" "m" "running" none
          none none none none none none [] none none none none none))
        "f1" "https://cdn.example/x") := by
  constructor
  · have h := (c8_terminal_elapsed_spec 61500
      (Generation.mk "g1" "u1" "image" "p" "m" "running" none
        (some 1000) none none none none none [] none none none none none)
      "boom" none "f1" "https://cdn.example/x").1 1000 rfl (by decide)
    have he : max 0 (((61500 : Int) - 1000).tdiv 1000) = 60 := by decide
    rw [he] at h
    exact h.1
  · intro e
    exact ((c8_terminal_elapsed_spec 61500
      (Generation.mk "g1" "u1" "image" "p" "m" "running" none
        none none none none none none [] none none none none none)
      "boom" none "f1" "https://cdn.example/x").2 (Or.inl rfl) e).2

/-- C10: when a per-user provider row exists but its stored encrypted key
decrypts with an error or to the empty string, the job is not failed: the
run silently uses the user-configured host with the system default key, and
an error is returned exactly when the finally resolved key is empty. -/
theorem c10_provider_fallback (cfg : GConfig) (p : UserProvider)
    (decrypt : String → String → Except String String)
    (hdec : ∀ d, decrypt p.apiKeyEnc cfg.apiKeyEncryptionSecret =
      Except.ok d → d = "") :
    (cfg.defaultProviderAPIKey ≠ "" →
      getEffectiveProvider cfg (Except.ok (some p)) decrypt =
        Except.ok (p.providerHost, cfg.defaultProviderAPIKey)) ∧
    (cfg.defaultProviderAPIKey = "" →
      getEffectiveProvider cfg (Except.ok (some p)) decrypt =
        Except.error "未配置接口密钥，请在接口设置中填写。") := by
  constructor <;> intro h
  all_goals
    unfold getEffectiveProvider
    by_cases he : p.apiKeyEnc = ""
    · simp [he, h]
    · cases hc : decrypt p.apiKeyEnc cfg.apiKeyEncryptionSecret with
      | error e => simp [he, hc, h]
      | ok d =>
          have hd := hdec d hc
          subst hd
          simp [he, hc, h]

/-- C10 witness: the theorem applied with a row whose key fails to decrypt
and a non-empty system default key. -/
theorem c10_provider_fallback_witness :
    getEffectiveProvider (GConfig.mk "https://grsai.example" "sk-default" "secret")
      (Except.ok (some (UserProvider.mk "u1" "https://host.example" "ENC")))
      (fun _ _ => Except.error "cipher: message authentication failed") =
      Except.ok ("https://host.example", "sk-default") := by
  exact (c10_provider_fallback
    (GConfig.mk "https://grsai.example" "sk-default" "secret")
    (UserProvider.mk "u1" "https://host.example" "ENC")
    (fun _ _ => Except.error "cipher: message authentication failed")
    (fun d hd => by cases hd)).1 (by decide)

/-- C5: a video-kind job routed to the synchronous image-only adapter is
immediately marked terminal failed with the unsupported-feature code and
its fixed message, and the run makes zero network calls to the provider. -/
theorem c5_gemini_video_unsupported (env : GeminiEnv) (st : Generation)
    (h : st.type = "video") :
    (runGeminiGeneration env st).1.status = "failed" ∧
    (runGeminiGeneration env st).1.errorCode =
      some GenerationErrorCode.unsupportedFeature ∧
    (runGeminiGeneration env st).1.error = some "Gemini API 暂不支持视频生成" ∧
    (runGeminiGeneration env st).2 = 0 := by
  have hne : (st.type != "image") = true := by rw [h]; rfl
  cases hre : resolveElapsedSeconds env.now (some st) with
  | none =>
      simp [runGeminiGeneration, hne, updateFailedWithCode, hre,
        applyUpdates, applyField]
  | some e =>
      simp [runGeminiGeneration, hne, updateFailedWithCode, hre,
        applyUpdates, applyField]



/-- C5 witness: the theorem applied to a concrete video job. -/
theorem c5_gemini_video_witness :
    (runGeminiGeneration geminiEnvEx videoJobEx).1.status = "failed" ∧
    (runGeminiGeneration geminiEnvEx videoJobEx).1.errorCode =
      some GenerationErrorCode.unsupportedFeature ∧
    (runGeminiGeneration geminiEnvEx videoJobEx).2 = 0 := by
  have h := c5_gemini_video_unsupported geminiEnvEx videoJobEx rfl
  exact ⟨h.1, h.2.1, h.2.2.2⟩

/-- The built reference list never exceeds the reference-ID list in length:
each identifier contributes at most one converted entry. -/
lemma buildRefURLs_length_le (fileData : String → Option String)
    (ids : List String) :
    (buildRefURLs fileData ids).length ≤ ids.length := by
  induction ids with
  | nil => simp [buildRefURLs]
  | cons fid rest ih =>
      unfold buildRefURLs
      cases hf : fileData fid with
      | none => simp; omega
      | some d =>
          by_cases hd : d = "" <;> simp [hd] <;> omega



/-- C2 counterexample: for an image job carrying fifteen resolvable
reference identifiers, the engine passes all fifteen to the adapter — the
claimed 14-entry cap does not hold in the protocol engine. -/
theorem c2_image_refs_uncapped :
    (grsaiSubmittedRefs allRefsResolve imageJob15).length = 15 ∧
    ¬ ((grsaiSubmittedRefs allRefsResolve imageJob15).length ≤ 14) := by
  decide

/-- C2 amended: the engine caps the reference list to one entry for a video
job, and for any job passes at most one entry per reference-file identifier
on the row (the 14-entry image cap is enforced at creation time by the HTTP
handler, not by the engine). -/
theorem c2_amended_refs_caps (fileData : String → Option String)
    (g : Generation) :
    (g.type = "video" → (grsaiSubmittedRefs fileData g).length ≤ 1) ∧
    (grsaiSubmittedRefs fileData g).length ≤ g.referenceFileIDs.length := by
  constructor
  · intro hv
    unfold grsaiSubmittedRefs
    rw [hv, if_neg (by decide : ¬ ("video" : String) = "image"),
      if_pos (rfl : ("video" : String) = "video")]
    cases hb : buildRefURLs fileData g.referenceFileIDs with
    | nil => simp
    | cons u us => by_cases hu : u = "" <;> simp [hu]
  · unfold grsaiSubmittedRefs
    by_cases hi : g.type = "image"
    · simpa [hi] using buildRefURLs_length_le fileData g.referenceFileIDs
    · by_cases hv : g.type = "video"
      · simp only [hi, if_false, hv, if_true]
        cases hb : buildRefURLs fileData g.referenceFileIDs with
        | nil => simp
        | cons u us =>
            have hlen := buildRefURLs_length_le fileData g.referenceFileIDs
            rw [hb] at hlen
            simp only [List.length_cons] at hlen
            by_cases hu : u = "" <;> (simp [hu]; try omega)
      · simp [hi, hv]


/-- C2 witness: the amended theorem applied at a concrete video job with
two references and at the fifteen-reference image job. -/
theorem c2_refs_caps_witness :
    (grsaiSubmittedRefs allRefsResolve videoJob2).length ≤ 1 ∧
    (grsaiSubmittedRefs allRefsResolve imageJob15).length ≤
      imageJob15.referenceFileIDs.length := by
  exact ⟨(c2_amended_refs_caps allRefsResolve videoJob2).1 rfl,
    (c2_amended_refs_caps allRefsResolve imageJob15).2⟩

/-- Guard membership is preserved by the tick walk: an ID in the guard set
stays in it. -/
lemma tickGo_guard_mono (gid : String) :
    ∀ (pending guard launched : List String), gid ∈ guard →
      gid ∈ (tickGo pending guard launched).1 := by
  intro pending
  induction pending with
  | nil => intro guard launched h; simpa [tickGo] using h
  | cons p rest ih =>
      intro guard launched h
      unfold tickGo
      by_cases hp : p ∈ guard
      · simp only [hp, if_true]
        exact ih guard launched h
      · simp only [hp, if_false]
        exact ih (p :: guard) (launched ++ [p]) (List.mem_cons_of_mem p h)

/-- An ID already in the guard set is never launched by the walk: the count
of its launches does not grow. -/
lemma tickGo_count_in_guard (gid : String) :
    ∀ (pending guard launched : List String), gid ∈ guard →
      (tickGo pending guard launched).2.count gid = launched.count gid := by
  intro pending
  induction pending with
  | nil => intro guard launched _; simp [tickGo]
  | cons p rest ih =>
      intro guard launched h
      unfold tickGo
      by_cases hp : p ∈ guard
      · simp only [hp, if_true]
        exact ih guard launched h
      · simp only [hp, if_false]
        have hne : p ≠ gid := fun he => hp (he ▸ h)
        rw [ih (p :: guard) (launched ++ [p]) (List.mem_cons_of_mem p h),
          List.count_append]
        simp [List.count_singleton, hne]

/-- The walk launches an ID at most once beyond its incoming count, and
whenever the count grew the ID ended up in the guard set. -/
lemma tickGo_count_le (gid : String) :
    ∀ (pending guard launched : List String),
      (tickGo pending guard launched).2.count gid ≤ launched.count gid + 1 ∧
      (launched.count gid < (tickGo pending guard launched).2.count gid →
        gid ∈ (tickGo pending guard launched).1) := by
  intro pending
  induction pending with
  | nil => intro guard launched; simp [tickGo]
  | cons p rest ih =>
      intro guard launched
      unfold tickGo
      by_cases hp : p ∈ guard
      · simp only [hp, if_true]
        exact ih guard launched
      · simp only [hp, if_false]
        by_cases he : p = gid
        · subst he
          have hin : p ∈ p :: guard := List.mem_cons_self p guard
          have hcount := tickGo_count_in_guard p rest (p :: guard)
            (launched ++ [p]) hin
          have hmem := tickGo_guard_mono p rest (p :: guard)
            (launched ++ [p]) hin
          rw [hcount, List.count_append]
          simp [List.count_singleton]
          exact hmem
        · have hne : ¬ (p == gid) = true := by
            simpa using fun hx => he (by simpa using hx)
          have := ih (p :: guard) (launched ++ [p])
          rw [List.count_append] at this
          simpa [List.count_singleton, hne] using this

/-- C9: a dispatch tick skips any job already present in the in-flight
guard set, and two ticks in rapid succession (the second seeing the guard
set left by the first, no run having returned in between) launch any given
job at most once in total. -/
theorem c9_tick_dedup (guard p1 p2 : List String) (gid : String) :
    (gid ∈ guard → gid ∉ (tick guard p1).2) ∧
    ((tick guard p1).2 ++ (tick (tick guard p1).1 p2).2).count gid ≤ 1 := by
  constructor
  · intro h
    have hc := tickGo_count_in_guard gid p1 guard [] h
    simp only [List.count_nil] at hc
    exact List.count_eq_zero.mp hc
  · rw [List.count_append]
    by_cases h : gid ∈ guard
    · have h1 := tickGo_count_in_guard gid p1 guard [] h
      have hmem := tickGo_guard_mono gid p1 guard [] h
      have h2 := tickGo_count_in_guard gid p2 (tickGo p1 guard []).1 [] hmem
      simp only [List.count_nil] at h1 h2
      unfold tick
      omega
    · have h1 := tickGo_count_le gid p1 guard []
      simp only [List.count_nil] at h1
      rcases Nat.lt_or_ge 0 ((tickGo p1 guard []).2.count gid) with hpos | hz
      · have hmem := h1.2 hpos
        have h2 := tickGo_count_in_guard gid p2 (tickGo p1 guard []).1 [] hmem
        simp only [List.count_nil] at h2
        unfold tick
        omega
      · have h2 := tickGo_count_le gid p2 (tickGo p1 guard []).1 []
        simp only [List.count_nil] at h2
        unfold tick
        omega

/-- C9 witness: the theorem applied at an empty guard and a single pending
job listed by both ticks. -/
theorem c9_tick_dedup_witness :
    (tick [] ["g1"]).2 = ["g1"] ∧
    ((tick [] ["g1"]).2 ++ (tick (tick [] ["g1"]).1 ["g1"]).2).count "g1" ≤ 1 := by
  exact ⟨by decide, (c9_tick_dedup [] ["g1"] ["g1"] "g1").2⟩

/-- The last element of a cons is the last of the tail, defaulting to the
head, phrased with Option.or. -/
lemma getLast?_cons_or {α : Type} (a : α) (xs : List α) :
    (a :: xs).getLast? = xs.getLast?.or (some a) := by
  cases xs with
  | nil => simp
  | cons b bs =>
      rw [List.getLast?_cons_cons]
      have h : (b :: bs).getLast?.isSome := by
        rw [List.getLast?_isSome]
        simp
      obtain ⟨v, hv⟩ := Option.isSome_iff_exists.mp h
      rw [hv]
      rfl

/-- Absorbing a fresh head into the fallback of a last-element lookup. -/
lemma getLast?_cons_or_absorb {α : Type} (a : α) (xs : List α)
    (y : Option α) :
    (a :: xs).getLast?.or y = xs.getLast?.or (some a) := by
  rw [getLast?_cons_or, Option.or_assoc]
  rfl

/-- The loop of parseSSEResponse computes, over any starting accumulators,
the last decoded record and the last terminal decoded record of the
remaining lines, falling back to the accumulators. -/
lemma parseSSELoop_spec (decode : String → Option JVal) :
    ∀ (lines : List String) (lastResult completedResult : Option JVal),
      parseSSELoop decode lines lastResult completedResult =
        ((lines.filterMap (sseRecordOfLine decode)).getLast?.or lastResult,
         ((lines.filterMap (sseRecordOfLine decode)).filter
            isTerminalRecord).getLast?.or completedResult) := by
  intro lines
  induction lines with
  | nil => intro l c; simp [parseSSELoop]
  | cons line rest ih =>
      intro l c
      unfold parseSSELoop
      cases hr : sseRecordOfLine decode line with
      | none => simp [List.filterMap_cons, hr, ih]
      | some data =>
          simp only [List.filterMap_cons, hr]
          rw [ih]
          cases hs : getStringField data "status" with
          | none =>
              have ht : isTerminalRecord data = false := by
                simp [isTerminalRecord, hs]
              rw [List.filter_cons, ht]
              simp only [if_false, Bool.false_eq_true]
              rw [getLast?_cons_or_absorb]
          | some status =>
              by_cases hterm : (status = "succeeded" || status = "failed") = true
              · have ht : isTerminalRecord data = true := by
                  simp [isTerminalRecord, hs, hterm]
                rw [List.filter_cons, ht]
                simp only [if_true, hterm]
                rw [getLast?_cons_or_absorb, getLast?_cons_or_absorb]
              · have ht : isTerminalRecord data = false := by
                  simp only [isTerminalRecord, hs]
                  exact Bool.not_eq_true _ ▸ (by simpa using hterm)
                rw [List.filter_cons, ht]
                simp only [if_false, Bool.false_eq_true, hterm]
                rw [getLast?_cons_or_absorb]





/-- C6: for every server-push body, the parser returns the last decoded
record whose status is succeeded or failed, falling back to the last
decoded record overall when none is terminal (lines without the data:
prefix and undecodable payloads are skipped, as the record-stream
definition states); in particular a stream of a running record followed by
a succeeded record and trailing garbage yields the succeeded record. -/
theorem c6_parseSSE_last_terminal :
    (∀ (decode : String → Option JVal) (respStr : String),
      parseSSEResponse decode respStr =
        ((sseDataRecords decode respStr).filter isTerminalRecord).getLast?.or
          (sseDataRecords decode respStr).getLast?) ∧
    parseSSEResponse exDecode exStream = some exSucceededRec := by
  constructor
  · intro decode respStr
    have h := parseSSELoop_spec decode (goSplit respStr '\n') none none
    simp only [parseSSEResponse, sseDataRecords]
    rw [h]
    simp only [Option.or_none]
    cases hc : (((goSplit respStr '\n').filterMap
        (sseRecordOfLine decode)).filter isTerminalRecord).getLast? with
    | none => simp
    | some r => simp
  · rfl

/-- The fields a failed-transition update leaves on the row: status failed,
the message as the error, outputFileId untouched. -/
lemma failed_update_fields (now : Int) (f : Option Generation) (msg : String)
    (c : Option GenerationErrorCode) (st : Generation) :
    (applyUpdates st (updateFailedWithCode now f msg c)).status = "failed" ∧
    (applyUpdates st (updateFailedWithCode now f msg c)).outputFileID =
      st.outputFileID ∧
    (applyUpdates st (updateFailedWithCode now f msg c)).error = some msg := by
  unfold updateFailedWithCode
  cases resolveElapsedSeconds now f <;> simp [applyUpdates, applyField]

/-- The fields a succeeded-transition update leaves on the row: status
succeeded, the stored file as outputFileId, the error column untouched. -/
lemma succeeded_update_fields (now : Int) (f : Option Generation)
    (fid url : String) (st : Generation) :
    (applyUpdates st (succeededUpdates now f fid url)).status = "succeeded" ∧
    (applyUpdates st (succeededUpdates now f fid url)).outputFileID =
      some fid ∧
    (applyUpdates st (succeededUpdates now f fid url)).error = st.error := by
  unfold succeededUpdates
  cases resolveElapsedSeconds now f <;> simp [applyUpdates, applyField]

/-- When the success handler leaves the row in status succeeded, it has set
an output file and has not touched the error column. -/
lemma handleGRSAISucceeded_fields (env : GrsaiEnv) (st : Generation)
    (result : TaskResult)
    (h : (handleGRSAISucceeded env st result).status = "succeeded") :
    (handleGRSAISucceeded env st result).outputFileID ≠ none ∧
    (handleGRSAISucceeded env st result).error = st.error := by
  unfold handleGRSAISucceeded at h ⊢
  by_cases hu : ExtractFirstResultURL result = ""
  · rw [if_pos hu] at h
    rw [(failed_update_fields env.now (some st) "未返回结果地址"
      (some GenerationErrorCode.apiError) st).1] at h
    exact absurd h (by decide)
  · rw [if_neg hu] at h ⊢
    revert h
    cases hd : env.download (ExtractFirstResultURL result) with
    | error e =>
        intro h
        rw [(failed_update_fields env.now (some st) ("下载失败：" ++ e)
          (some GenerationErrorCode.networkError) st).1] at h
        exact absurd h (by decide)
    | ok fileID =>
        intro _
        have hf := succeeded_update_fields env.now (some st) fileID
          (ExtractFirstResultURL result) st
        refine ⟨?_, hf.2.2⟩
        rw [hf.2.1]
        simp

/-- Persisting a transient poll-fetch error leaves status and outputFileId
untouched. -/
lemma applyError_fields (st : Generation) (e : String) :
    (applyUpdates st [GenField.error e]).status = st.status ∧
    (applyUpdates st [GenField.error e]).outputFileID = st.outputFileID := by
  simp [applyUpdates, applyField]

/-- Persisting a progress value leaves status, error and outputFileId
untouched. -/
lemma applyProgress_fields (st : Generation) (p : Rat) :
    (applyUpdates st [GenField.progress p]).status = st.status ∧
    (applyUpdates st [GenField.progress p]).error = st.error := by
  simp [applyUpdates, applyField]

/-- Step equation: a failing row re-read exits the loop silently. -/
lemma pollLoop_readFail (env : GrsaiEnv) (fuel attempts : Nat)
    (st : Generation) (h : env.readFail attempts = true) :
    runGRSAIPollLoop env (fuel + 1) attempts st = st := by
  rw [runGRSAIPollLoop, if_pos h]

/-- Step equation: an already-terminal persisted status exits silently. -/
lemma pollLoop_terminal (env : GrsaiEnv) (fuel attempts : Nat)
    (st : Generation) (h1 : env.readFail attempts = false)
    (h2 : terminalStatus st.status = true) :
    runGRSAIPollLoop env (fuel + 1) attempts st = st := by
  rw [runGRSAIPollLoop, if_neg (by simp [h1]), if_pos h2]

/-- Step equation: a missing task ID fails with invalid-request. -/
lemma pollLoop_missing (env : GrsaiEnv) (fuel attempts : Nat)
    (st : Generation) (h1 : env.readFail attempts = false)
    (h2 : terminalStatus st.status = false) (h3 : taskIDMissing st = true) :
    runGRSAIPollLoop env (fuel + 1) attempts st =
      applyUpdates st (updateFailedWithCode env.now (some st) "缺少任务 ID"
        (some GenerationErrorCode.invalidRequest)) := by
  rw [runGRSAIPollLoop, if_neg (by simp [h1]), if_neg (by simp [h2]),
    if_pos h3]

/-- Step equation: a transient fetch error persists the message on every
tenth attempt and retries. -/
lemma pollLoop_pollError (env : GrsaiEnv) (fuel attempts : Nat)
    (st : Generation) (e : String) (h1 : env.readFail attempts = false)
    (h2 : terminalStatus st.status = false) (h3 : taskIDMissing st = false)
    (hp : env.poll attempts = Except.error e) :
    runGRSAIPollLoop env (fuel + 1) attempts st =
      runGRSAIPollLoop env fuel (attempts + 1)
        (if attempts % 10 = 0 then applyUpdates st [GenField.error e]
         else st) := by
  rw [runGRSAIPollLoop, if_neg (by simp [h1]), if_neg (by simp [h2]),
    if_neg (by simp [h3]), hp]

/-- Step equation: a fetched result updates progress and dispatches on the
reported status. -/
lemma pollLoop_pollOk (env : GrsaiEnv) (fuel attempts : Nat)
    (st : Generation) (result : TaskResult)
    (h1 : env.readFail attempts = false)
    (h2 : terminalStatus st.status = false) (h3 : taskIDMissing st = false)
    (hp : env.poll attempts = Except.ok result) :
    runGRSAIPollLoop env (fuel + 1) attempts st =
      (let st2 := if 0 < result.progress then
          applyUpdates st [GenField.progress result.progress] else st
       if result.status = "succeeded" then handleGRSAISucceeded env st2 result
       else if result.status = "failed" then
         applyUpdates st2 (updateFailed env.now (some st2)
           (if result.error != "" then result.error
            else if result.message != "" then result.message
            else "任务执行失败"))
       else runGRSAIPollLoop env fuel (attempts + 1) st2) := by
  rw [runGRSAIPollLoop, if_neg (by simp [h1]), if_neg (by simp [h2]),
    if_neg (by simp [h3]), hp]

/-- C1 amended: a run of the poll loop that leaves a non-succeeded row in
status succeeded has set outputFileId; and its error column is still empty
provided it was empty at entry and no transient poll-fetch error occurred
during the run (the success update itself never clears a previously
persisted transient error). -/
theorem c1_amended_succeeded_invariant (env : GrsaiEnv) (fuel attempts : Nat)
    (st : Generation) (hs : st.status ≠ "succeeded")
    (hSucc : (runGRSAIPollLoop env fuel attempts st).status = "succeeded") :
    (runGRSAIPollLoop env fuel attempts st).outputFileID ≠ none ∧
    (st.error = none → (∀ k e, env.poll k ≠ Except.error e) →
      (runGRSAIPollLoop env fuel attempts st).error = none) := by
  induction fuel generalizing attempts st with
  | zero =>
      exfalso
      rw [runGRSAIPollLoop,
        (failed_update_fields env.now (some st) "等待结果超时"
          (some GenerationErrorCode.timeout) st).1] at hSucc
      exact absurd hSucc (by decide)
  | succ fuel ih =>
      cases hrf : env.readFail attempts with
      | true =>
          rw [pollLoop_readFail env fuel attempts st hrf] at hSucc ⊢
          exact absurd hSucc hs
      | false =>
      cases hterm : terminalStatus st.status with
      | true =>
          rw [pollLoop_terminal env fuel attempts st hrf hterm] at hSucc ⊢
          exact absurd hSucc hs
      | false =>
      cases hmiss : taskIDMissing st with
      | true =>
          rw [pollLoop_missing env fuel attempts st hrf hterm hmiss,
            (failed_update_fields env.now (some st) "缺少任务 ID"
              (some GenerationErrorCode.invalidRequest) st).1] at hSucc
          exact absurd hSucc (by decide)
      | false =>
      cases hp : env.poll attempts with
      | error e =>
          rw [pollLoop_pollError env fuel attempts st e hrf hterm hmiss hp]
            at hSucc ⊢
          by_cases hten : attempts % 10 = 0
          · rw [if_pos hten] at hSucc ⊢
            have hss : (applyUpdates st [GenField.error e]).status ≠
                "succeeded" := by rw [(applyError_fields st e).1]; exact hs
            refine ⟨(ih (attempts + 1)
              (applyUpdates st [GenField.error e]) hss hSucc).1, ?_⟩
            intro _ hnoerr
            exact absurd hp (hnoerr attempts e)
          · rw [if_neg hten] at hSucc ⊢
            refine ⟨(ih (attempts + 1) st hs hSucc).1, ?_⟩
            intro _ hnoerr
            exact absurd hp (hnoerr attempts e)
      | ok result =>
          rw [pollLoop_pollOk env fuel attempts st result hrf hterm hmiss hp]
            at hSucc ⊢
          by_cases hprog : 0 < result.progress
          · rw [if_pos hprog] at hSucc ⊢
            set st2 := applyUpdates st [GenField.progress result.progress]
              with hst2
            have hst2s : st2.status = st.status :=
              (applyProgress_fields st result.progress).1
            have hst2e : st2.error = st.error :=
              (applyProgress_fields st result.progress).2
            by_cases hrs : result.status = "succeeded"
            · rw [if_pos hrs] at hSucc ⊢
              have hh := handleGRSAISucceeded_fields env st2 result hSucc
              exact ⟨hh.1, fun he _ => by rw [hh.2, hst2e, he]⟩
            · rw [if_neg hrs] at hSucc ⊢
              by_cases hrf2 : result.status = "failed"
              · rw [if_pos hrf2] at hSucc
                rw [updateFailed,
                  (failed_update_fields env.now (some st2) _ none
                    st2).1] at hSucc
                exact absurd hSucc (by decide)
              · rw [if_neg hrf2] at hSucc ⊢
                have hss : st2.status ≠ "succeeded" := by
                  rw [hst2s]; exact hs
                have hrec := ih (attempts + 1) st2 hss hSucc
                refine ⟨hrec.1, fun he hnoerr => ?_⟩
                exact hrec.2 (by rw [hst2e, he]) hnoerr
          · rw [if_neg hprog] at hSucc ⊢
            by_cases hrs : result.status = "succeeded"
            · rw [if_pos hrs] at hSucc ⊢
              have hh := handleGRSAISucceeded_fields env st result hSucc
              exact ⟨hh.1, fun he _ => by rw [hh.2, he]⟩
            · rw [if_neg hrs] at hSucc ⊢
              by_cases hrf2 : result.status = "failed"
              · rw [if_pos hrf2] at hSucc
                rw [updateFailed,
                  (failed_update_fields env.now (some st) _ none
                    st).1] at hSucc
                exact absurd hSucc (by decide)
              · rw [if_neg hrf2] at hSucc ⊢
                have hrec := ih (attempts + 1) st hs hSucc
                exact ⟨hrec.1, fun he hnoerr => hrec.2 he hnoerr⟩





/-- C1 counterexample: a job that reaches terminal succeeded after a
transient poll-fetch error was persisted ends with BOTH outputFileId and
error non-empty — the persisted error field of a succeeded job is not
empty, refuting the claimed invariant. -/
theorem c1_succeeded_keeps_stale_error :
    c1Final.status = "succeeded" ∧
    c1Final.outputFileID = some "file-7" ∧
    c1Final.error = some "connection refused" ∧
    ¬ (c1Final.error = none ∨ c1Final.error = some "") := by
  decide



/-- C1 witness: the amended theorem applied to a clean run with no
transient fetch error. -/
theorem c1_amended_witness :
    (runGRSAIPollLoop c1WitEnv 300 0 c1WitJob).outputFileID ≠ none ∧
    (runGRSAIPollLoop c1WitEnv 300 0 c1WitJob).error = none := by
  have h1 : c1WitJob.status ≠ "succeeded" := by decide
  have h2 : (runGRSAIPollLoop c1WitEnv 300 0 c1WitJob).status =
      "succeeded" := by decide
  have main := c1_amended_succeeded_invariant c1WitEnv 300 0 c1WitJob h1 h2
  refine ⟨main.1, main.2 (by decide) ?_⟩
  intro k e h
  simp [c1WitEnv] at h

end NanoBackend
